import Mathlib

/-!
# Dependency-watchdog shoot access, scheduler RBAC and extension helpers

A shallow embedding of

* `pkg/component/dependencywatchdog/access.go` (`Deploy`, `Destroy`),
* `pkg/component/gardenerscheduler/rbac.go` (`clusterRole`, `clusterRoleBinding`),
* `pkg/apis/extensions/v1alpha1/helper/helper.go` (`ClusterAutoscalerRequired`,
  `GetDNSRecordType`).

Go strings are Lean strings, a Go `error` is an `Option GoError` (`none` is `nil`),
and the target cluster reached through `client.Client` is an explicit state that every
call takes and returns.  Collaborators that live outside the analysed files (the secrets
manager, the access-secret reconciler, the managed-resource registry and writer, the
object deleter) are fields of `Env`, so every statement about `Deploy` and `Destroy`
holds for each behaviour these collaborators may have.
-/

namespace Gardener

/-! ## Kubernetes API values -/

/-- A Go byte slice (`[]byte`); the `nil` slice and the empty slice are both `[]`. -/
abbrev Bytes := List Nat

/-- The part of `metav1.ObjectMeta` that the analysed code sets. -/
structure ObjectMeta where
  Name : String
  Namespace : String := ""
  Labels : List (String × String) := []
  deriving DecidableEq, Repr

/-- The type `rbacv1.PolicyRule`; a field left out of a Go literal is the empty list. -/
structure PolicyRule where
  APIGroups : List String := []
  Resources : List String := []
  ResourceNames : List String := []
  Verbs : List String := []
  deriving DecidableEq, Repr

/-- The type `rbacv1.Role`. -/
structure Role where
  ObjectMeta : ObjectMeta
  Rules : List PolicyRule
  deriving DecidableEq, Repr

/-- The type `rbacv1.ClusterRole`. -/
structure ClusterRole where
  ObjectMeta : ObjectMeta
  Rules : List PolicyRule
  deriving DecidableEq, Repr

/-- The type `rbacv1.RoleRef`. -/
structure RoleRef where
  APIGroup : String
  Kind : String
  Name : String
  deriving DecidableEq, Repr

/-- The type `rbacv1.Subject`. -/
structure Subject where
  Kind : String
  Name : String
  Namespace : String
  deriving DecidableEq, Repr

/-- The type `rbacv1.RoleBinding`. -/
structure RoleBinding where
  ObjectMeta : ObjectMeta
  RoleRef : RoleRef
  Subjects : List Subject
  deriving DecidableEq, Repr

/-- The type `rbacv1.ClusterRoleBinding`. -/
structure ClusterRoleBinding where
  ObjectMeta : ObjectMeta
  RoleRef : RoleRef
  Subjects : List Subject
  deriving DecidableEq, Repr

/-- The fields of `clientcmdv1.Cluster` that `Deploy` sets. -/
structure Cluster where
  Server : String
  CertificateAuthorityData : Bytes
  deriving DecidableEq, Repr

/-- The field of `clientcmdv1.AuthInfo` that `Deploy` sets. -/
structure AuthInfo where
  Token : String
  deriving DecidableEq, Repr

/-- The part of `corev1.Secret` read by `Deploy`: the `Data` map (`map[string][]byte`) as an
association list. -/
structure Secret where
  Data : List (String × Bytes)
  deriving DecidableEq, Repr

/-- Go map indexing `m[key]` on a `map[string][]byte`: the stored slice, or `nil` when the key
is absent. -/
def Secret.index (m : List (String × Bytes)) (key : String) : Bytes :=
  match m.lookup key with
  | some v => v
  | none => []

/-- Constant `rbacv1.GroupName` of the Kubernetes API library. -/
def rbacv1GroupName : String := "rbac.authorization.k8s.io"

/-- Constant `rbacv1.ServiceAccountKind` of the Kubernetes API library. -/
def rbacv1ServiceAccountKind : String := "ServiceAccount"

/-- Constant `metav1.NamespaceSystem` of the Kubernetes API library. -/
def metav1NamespaceSystem : String := "kube-system"

/-- Constant `coordinationv1beta1.GroupName` of the Kubernetes API library. -/
def coordinationv1beta1GroupName : String := "coordination.k8s.io"

/-- Go `strings.TrimPrefix(s, pre)`: `s` without the leading `pre` when `s` starts with it,
otherwise `s` itself. -/
def stringsTrimPrefix (s pre : String) : String :=
  if pre.data.isPrefixOf s.data then String.mk (s.data.drop pre.data.length) else s

/-- Go `strings.HasPrefix(s, pre)`: whether `s` starts with `pre`. -/
def stringsHasPrefix (s pre : String) : Bool :=
  pre.data.isPrefixOf s.data

/-- A Go `error` value.  `Errorf` is the value built by `fmt.Errorf(format, args...)`, kept as
its format string and arguments; `other` is any error produced by a collaborator. -/
inductive GoError where
  | Errorf (format : String) (args : List String)
  | other (msg : String)
  deriving DecidableEq, Repr

/-! ## Constants declared outside the analysed files -/

/-- The named constants that the analysed files import from other packages of the repository.
Their values are not fixed by the analysed files, so they are parameters. -/
structure Constants where
  /-- Constant `gardenerutils.SecretNamePrefixShootAccess`. -/
  SecretNamePrefixShootAccess : String
  /-- Constant `v1beta1constants.SecretNameCACluster`. -/
  SecretNameCACluster : String
  /-- Constant `v1beta1constants.KubeNodeLease`. -/
  KubeNodeLease : String
  /-- Constant `prefixDependencyWatchdog` of package `dependencywatchdog`. -/
  prefixDependencyWatchdog : String
  /-- Constant `secretsutils.DataKeyCertificateBundle`. -/
  DataKeyCertificateBundle : String
  /-- Constant `managedresources.LabelValueGardener`. -/
  LabelValueGardener : String
  /-- Constant `gardencorev1beta1.GroupName`. -/
  gardencoreGroupName : String
  /-- Constant `schedulerv1alpha1.SchedulerDefaultLockObjectName`. -/
  SchedulerDefaultLockObjectName : String
  /-- The result of `GetLabels()` of package `gardenerscheduler`. -/
  GetLabels : List (String × String)
  deriving DecidableEq, Repr

/-! ## Collaborators of the dependency-watchdog access component -/

/-- Modelled from the spec: the kubeconfig-equivalent returned by `kubernetesutils.NewKubeconfig`,
which is not part of the analysed files.  The spec describes the credential as binding a server
address, a CA certificate bundle and a bearer-token placeholder; the value keeps the context
name, the cluster entry and the auth-info entry it was built from. -/
structure Kubeconfig where
  ContextName : String
  Cluster : Cluster
  AuthInfo : AuthInfo
  deriving DecidableEq, Repr

/-- Modelled from the spec: `kubernetesutils.NewKubeconfig(contextName, cluster, authInfo)`,
which is not part of the analysed files; it binds the given cluster and auth info.  As the
function of the repository does, it writes the server as an `https://` URL: a server address
that does not start with `https://` gets that scheme put in front. -/
def NewKubeconfig (contextName : String) (cluster : Cluster) (authInfo : AuthInfo) : Kubeconfig :=
  { ContextName := contextName,
    Cluster :=
      if stringsHasPrefix cluster.Server "https://" then cluster
      else { cluster with Server := "https://" ++ cluster.Server },
    AuthInfo := authInfo }

/-- Modelled from the spec: the scoped access credential `gardenerutils.AccessSecret`, which is
not part of the analysed files: a secret name, a namespace and the kubeconfig written into the
secret (absent until `WithKubeconfig` is called). -/
structure AccessSecret where
  Name : String
  Namespace : String
  Kubeconfig : Option Kubeconfig
  deriving DecidableEq, Repr

/-- Modelled from the spec: `gardenerutils.NewShootAccessSecret(name, namespace)`, which is not
part of the analysed files; a credential for the given secret name and namespace. -/
def NewShootAccessSecret (name ns : String) : AccessSecret :=
  { Name := name, Namespace := ns, Kubeconfig := none }

/-- Modelled from the spec: `AccessSecret.WithNameOverride(name)`, which is not part of the
analysed files; it sets the name of the secret. -/
def AccessSecret.WithNameOverride (s : AccessSecret) (name : String) : AccessSecret :=
  { s with Name := name }

/-- Modelled from the spec: `AccessSecret.WithKubeconfig(kubeconfig)`, which is not part of the
analysed files; it sets the kubeconfig carried by the secret. -/
def AccessSecret.WithKubeconfig (s : AccessSecret) (kubeconfig : Gardener.Kubeconfig) :
    AccessSecret :=
  { s with Kubeconfig := some kubeconfig }

/-- The objects that the managed-resource registry is given: it accepts any `client.Object`;
the analysed files build roles, role bindings and secrets. -/
inductive Object where
  | role (r : Role)
  | roleBinding (b : RoleBinding)
  | secret (s : AccessSecret)
  deriving DecidableEq, Repr

/-- The kinds of the objects that `Destroy` passes to `kubernetesutils.DeleteObjects`. -/
inductive ObjectKind where
  | Secret
  | ManagedResource
  deriving DecidableEq, Repr

/-- An object as `Destroy` passes it to `kubernetesutils.DeleteObjects`: a typed object that
carries only `ObjectMeta.Name` and `ObjectMeta.Namespace`. -/
structure ObjectKey where
  Kind : ObjectKind
  Namespace : String
  Name : String
  deriving DecidableEq, Repr

/-- The collaborators of the component, over a cluster state `σ` and a payload type `π`
(the result type of the registry's serializer).  A call on the cluster returns the Go error
and the cluster state it leaves behind. -/
structure Env (σ π : Type) where
  /-- Method `secretsManager.Get(name)`: the secret and `found`. -/
  secretsManagerGet : String → Option Secret
  /-- Method `AccessSecret.Reconcile(ctx, client)`. -/
  Reconcile : AccessSecret → σ → Option GoError × σ
  /-- Method `registry.AddAllAndSerialize(objects...)` on the registry built from the seed
  scheme, codec and serializer. -/
  AddAllAndSerialize : List Object → Except GoError π
  /-- Function `managedresources.CreateForShoot(ctx, client, namespace, name, origin,
  keepObjects, data)`. -/
  CreateForShoot : String → String → String → Bool → π → σ → Option GoError × σ
  /-- Function `kubernetesutils.DeleteObjects(ctx, client, objects...)`. -/
  DeleteObjects : List ObjectKey → σ → Option GoError × σ

/-! ## `pkg/component/dependencywatchdog/access.go` -/

namespace dependencywatchdog

/-- Constant `KubeConfigSecretName`. -/
def KubeConfigSecretName (c : Constants) : String :=
  c.SecretNamePrefixShootAccess ++ "dependency-watchdog-probe"

/-- Constant `managedResourceTargetName`. -/
def managedResourceTargetName : String := "shoot-core-dependency-watchdog"

/-- The type `AccessValues`. -/
structure AccessValues where
  ServerInCluster : String
  deriving DecidableEq, Repr

/-- The type `dependencyWatchdogAccess`; its `client` is the cluster state threaded through
the calls, its `secretsManager` is `Env.secretsManagerGet`, and its field `namespace` is
`Namespace` here. -/
structure dependencyWatchdogAccess where
  Namespace : String
  values : AccessValues
  deriving DecidableEq, Repr

/-- The local `shootAccessSecret.WithKubeconfig(kubeconfig)` of `Deploy`: the credential that
is reconciled, for the CA secret returned by the secrets manager. -/
def shootAccessSecret (c : Constants) (d : dependencyWatchdogAccess) (caSecret : Secret) :
    AccessSecret :=
  ((NewShootAccessSecret (KubeConfigSecretName c) d.Namespace).WithNameOverride
      (KubeConfigSecretName c)).WithKubeconfig
    (NewKubeconfig d.Namespace
      { Server := d.values.ServerInCluster,
        CertificateAuthorityData := Secret.index caSecret.Data c.DataKeyCertificateBundle }
      { Token := "" })

/-- The local `role` of `Deploy`. -/
def role (c : Constants) : Role :=
  { ObjectMeta :=
      { Name := "gardener.cloud:target:" ++ c.prefixDependencyWatchdog,
        Namespace := c.KubeNodeLease },
    Rules :=
      [ { APIGroups := ["coordination.k8s.io"],
          Resources := ["leases"],
          Verbs := ["create", "get", "update", "patch", "list"] } ] }

/-- The local `roleBinding` of `Deploy`. -/
def roleBinding (c : Constants) : RoleBinding :=
  { ObjectMeta :=
      { Name := "gardener.cloud:target:" ++ c.prefixDependencyWatchdog,
        Namespace := c.KubeNodeLease },
    RoleRef :=
      { APIGroup := rbacv1GroupName,
        Kind := "Role",
        Name := (role c).ObjectMeta.Name },
    Subjects :=
      [ { Kind := rbacv1ServiceAccountKind,
          Name := stringsTrimPrefix (KubeConfigSecretName c) c.SecretNamePrefixShootAccess,
          Namespace := metav1NamespaceSystem } ] }

/-- Method `(*dependencyWatchdogAccess).Deploy`. -/
def Deploy {σ π : Type} (c : Constants) (env : Env σ π) (d : dependencyWatchdogAccess)
    (cl : σ) : Option GoError × σ :=
  match env.secretsManagerGet c.SecretNameCACluster with
  | none => (some (GoError.Errorf "secret %q not found" [c.SecretNameCACluster]), cl)
  | some caSecret =>
    match env.Reconcile (shootAccessSecret c d caSecret) cl with
    | (some err, cl1) => (some err, cl1)
    | (none, cl1) =>
      match env.AddAllAndSerialize [Object.role (role c), Object.roleBinding (roleBinding c)] with
      | Except.error err => (some err, cl1)
      | Except.ok resources =>
        env.CreateForShoot d.Namespace managedResourceTargetName c.LabelValueGardener false
          resources cl1

/-- Method `(*dependencyWatchdogAccess).Destroy`. -/
def Destroy {σ π : Type} (c : Constants) (env : Env σ π) (d : dependencyWatchdogAccess)
    (cl : σ) : Option GoError × σ :=
  env.DeleteObjects
    [ { Kind := ObjectKind.Secret, Name := KubeConfigSecretName c, Namespace := d.Namespace },
      { Kind := ObjectKind.ManagedResource, Name := managedResourceTargetName,
        Namespace := d.Namespace } ]
    cl

end dependencywatchdog

/-! ## A recording client

The calls that reach the cluster, in order, with their arguments: the cluster state is the log
of calls, and each call is answered with the error chosen by `answer`. -/

/-- One call on the cluster client, with the arguments it was given. -/
inductive Call (π : Type) where
  | Reconcile (secret : AccessSecret)
  | CreateForShoot (ns name origin : String) (keepObjects : Bool) (data : π)
  | DeleteObjects (objects : List ObjectKey)

/-- The environment whose client appends every call to the log and returns `answer call`. -/
def recordingEnv {π : Type} (get : String → Option Secret)
    (serialize : List Object → Except GoError π) (answer : Call π → Option GoError) :
    Env (List (Call π)) π :=
  { secretsManagerGet := get,
    Reconcile := fun secret log => (answer (Call.Reconcile secret), log ++ [Call.Reconcile secret]),
    AddAllAndSerialize := serialize,
    CreateForShoot := fun ns name origin keepObjects data log =>
      (answer (Call.CreateForShoot ns name origin keepObjects data),
        log ++ [Call.CreateForShoot ns name origin keepObjects data]),
    DeleteObjects := fun objects log =>
      (answer (Call.DeleteObjects objects), log ++ [Call.DeleteObjects objects]) }

/-! ## The target cluster, as the spec describes it

The applier, the bundle writer and the access-secret reconciler are not part of the analysed
files.  The definitions of this section follow sections 3, 4.2, 4.3 and 4.4 of the spec. -/

/-- Modelled from the spec: what the cluster stores under a key; the applier and the handoff
code that write these objects are not part of the analysed files.  A credential secret holds the
cluster-access configuration, a backing secret holds a part of a bundle payload, and a bundle
record holds class, secret references and the flags `keepObjects` and `forceOverwrite`. -/
inductive Stored (π : Type) where
  | credential (kubeconfig : Option Kubeconfig)
  | backing (data : π)
  | bundle (cls : String) (secretRefs : List String) (keepObjects forceOverwrite : Bool)
  deriving DecidableEq

/-- Modelled from the spec: the observable state of the target cluster, which the analysed
files reach only through `client.Client`: every object is keyed by kind, namespace and name. -/
abbrev ClusterState (π : Type) := ObjectKey → Option (Stored π)

/-- Modelled from the spec: the write of one object under its key (create when absent, replace
wholesale when present); the applier is not part of the analysed files. -/
def ClusterState.put {π : Type} (cl : ClusterState π) (k : ObjectKey) (v : Stored π) :
    ClusterState π :=
  fun k1 => if k1 = k then some v else cl k1

/-- Modelled from the spec: the removal of one object; the applier is not part of the analysed
files. -/
def ClusterState.remove {π : Type} (cl : ClusterState π) (k : ObjectKey) : ClusterState π :=
  fun k1 => if k1 = k then none else cl k1

/-- The two kinds of single-object writes of the applier. -/
inductive WriteVerb where
  | apply
  | delete
  deriving DecidableEq, Repr

/-- Modelled from the spec: the errors of the target cluster API, which is an external
collaborator: for each single-object write, the error it fails with, or `none`. -/
abbrev Faults := WriteVerb → ObjectKey → Option GoError

/-- Modelled from the spec: `Apply` of section 4.2 with the default merge function; the applier
is not part of the analysed files.  A failed call writes nothing. -/
def Apply {π : Type} (faults : Faults) (k : ObjectKey) (v : Stored π) (cl : ClusterState π) :
    Option GoError × ClusterState π :=
  match faults WriteVerb.apply k with
  | some err => (some err, cl)
  | none => (none, cl.put k v)

/-- Modelled from the spec: `ApplyAll` of section 4.2; the applier is not part of the analysed
files.  Objects are written in the given order, processing stops at the first error, and the
objects written before it stay written. -/
def ApplyAll {π : Type} (faults : Faults) :
    List (ObjectKey × Stored π) → ClusterState π → Option GoError × ClusterState π
  | [], cl => (none, cl)
  | (k, v) :: rest, cl =>
    match Apply faults k v cl with
    | (some err, cl1) => (some err, cl1)
    | (none, cl1) => ApplyAll faults rest cl1

/-- Modelled from the spec: `Delete` of section 4.2; the applier is not part of the analysed
files.  Deleting an absent object is not an error. -/
def Delete {π : Type} (faults : Faults) (k : ObjectKey) (cl : ClusterState π) :
    Option GoError × ClusterState π :=
  match faults WriteVerb.delete k with
  | some err => (some err, cl)
  | none => (none, cl.remove k)

/-- Modelled from the spec: `DeleteAll` of section 4.2, which stands for
`kubernetesutils.DeleteObjects`; the function is not part of the analysed files.  Objects are
deleted in the given order and processing stops at the first error. -/
def DeleteAll {π : Type} (faults : Faults) :
    List ObjectKey → ClusterState π → Option GoError × ClusterState π
  | [], cl => (none, cl)
  | k :: rest, cl =>
    match Delete faults k cl with
    | (some err, cl1) => (some err, cl1)
    | (none, cl1) => DeleteAll faults rest cl1

/-- Modelled from the spec: how a bundle payload is written into one or more secrets.  The
spec leaves the splitting open, so it is a parameter: the name and content of the first backing
secret and of the further ones, for a bundle name and a payload. -/
structure Chunking (π : Type) where
  first : String → π → String × π
  more : String → π → List (String × π)

/-- The backing secrets of a bundle: one or more. -/
def Chunking.secrets {π : Type} (ch : Chunking π) (name : String) (data : π) :
    List (String × π) :=
  ch.first name data :: ch.more name data

/-- Modelled from the spec: the objects that `CreateForTarget` of section 4.3 writes, in order;
`managedresources.CreateForShoot` is not part of the analysed files.  The payload goes into the
backing secrets, then the bundle record that references them is written. -/
def bundleObjects {π : Type} (ch : Chunking π) (ns name cls : String) (keepObjects : Bool)
    (data : π) : List (ObjectKey × Stored π) :=
  (ch.secrets name data).map
      (fun p => ({ Kind := ObjectKind.Secret, Namespace := ns, Name := p.1 }, Stored.backing p.2))
    ++ [({ Kind := ObjectKind.ManagedResource, Namespace := ns, Name := name },
          Stored.bundle cls ((ch.secrets name data).map Prod.fst) keepObjects false)]

/-- Modelled from the spec: `CreateForTarget` of section 4.3; `managedresources.CreateForShoot`
is not part of the analysed files. -/
def CreateForTarget {π : Type} (ch : Chunking π) (faults : Faults) (ns name cls : String)
    (keepObjects : Bool) (data : π) (cl : ClusterState π) : Option GoError × ClusterState π :=
  ApplyAll faults (bundleObjects ch ns name cls keepObjects data) cl

/-- Modelled from the spec: step 3 of section 4.4, the credential reconciled as a secret through
the applier; `AccessSecret.Reconcile` is not part of the analysed files. -/
def ReconcileCredential {π : Type} (faults : Faults) (secret : AccessSecret)
    (cl : ClusterState π) : Option GoError × ClusterState π :=
  Apply faults { Kind := ObjectKind.Secret, Namespace := secret.Namespace, Name := secret.Name }
    (Stored.credential secret.Kubeconfig) cl

/-- The writes of a list of objects, in order, when none of them fails. -/
def putAll {π : Type} : List (ObjectKey × Stored π) → ClusterState π → ClusterState π
  | [], cl => cl
  | (k, v) :: rest, cl => putAll rest (cl.put k v)

/-- The environment whose cluster behaves as the spec describes. -/
def specEnv {π : Type} (get : String → Option Secret)
    (serialize : List Object → Except GoError π) (ch : Chunking π) (faults : Faults) :
    Env (ClusterState π) π :=
  { secretsManagerGet := get,
    Reconcile := ReconcileCredential faults,
    AddAllAndSerialize := serialize,
    CreateForShoot := CreateForTarget ch faults,
    DeleteObjects := DeleteAll faults }

/-- The objects that `Deploy` writes to a cluster that behaves as the spec describes, in order:
the credential secret, then the backing secrets and the record of the bundle. -/
def deployWrites {π : Type} (c : Constants) (ch : Chunking π)
    (d : dependencywatchdog.dependencyWatchdogAccess) (caSecret : Secret) (data : π) :
    List (ObjectKey × Stored π) :=
  ({ Kind := ObjectKind.Secret,
     Namespace := (dependencywatchdog.shootAccessSecret c d caSecret).Namespace,
     Name := (dependencywatchdog.shootAccessSecret c d caSecret).Name },
    Stored.credential (dependencywatchdog.shootAccessSecret c d caSecret).Kubeconfig)
  :: bundleObjects ch d.Namespace dependencywatchdog.managedResourceTargetName
      c.LabelValueGardener false data

/-! ## `pkg/component/gardenerscheduler/rbac.go` -/

namespace gardenerscheduler

/-- Constant `clusterRoleName`. -/
def clusterRoleName : String := "gardener.cloud:system:scheduler"

/-- Constant `clusterRoleBindingName`. -/
def clusterRoleBindingName : String := "gardener.cloud:system:scheduler"

/-- Method `(*gardenerScheduler).clusterRole`. -/
def clusterRole (c : Constants) : ClusterRole :=
  { ObjectMeta := { Name := clusterRoleName, Labels := c.GetLabels },
    Rules :=
      [ { APIGroups := [""],
          Resources := ["events"],
          Verbs := ["create", "patch", "update"] },
        { APIGroups := [""],
          Resources := ["configmaps"],
          Verbs := ["create", "delete", "get", "list", "watch", "patch", "update"] },
        { APIGroups := [c.gardencoreGroupName],
          Resources := ["cloudprofiles", "seeds"],
          Verbs := ["get", "list", "watch"] },
        { APIGroups := [c.gardencoreGroupName],
          Resources := ["shoots"],
          Verbs := ["get", "list", "watch", "patch", "update"] },
        { APIGroups := [c.gardencoreGroupName],
          Resources := ["shoots/binding"],
          Verbs := ["update"] },
        { APIGroups := [coordinationv1beta1GroupName],
          Resources := ["leases"],
          Verbs := ["create"] },
        { APIGroups := [coordinationv1beta1GroupName],
          Resources := ["leases"],
          ResourceNames := [c.SchedulerDefaultLockObjectName],
          Verbs := ["get", "watch", "update"] } ] }

/-- Method `(*gardenerScheduler).clusterRoleBinding`. -/
def clusterRoleBinding (c : Constants) (serviceAccountName : String) : ClusterRoleBinding :=
  { ObjectMeta := { Name := clusterRoleBindingName, Labels := c.GetLabels },
    RoleRef :=
      { APIGroup := rbacv1GroupName,
        Kind := "ClusterRole",
        Name := clusterRoleName },
    Subjects :=
      [ { Kind := "ServiceAccount",
          Name := serviceAccountName,
          Namespace := metav1NamespaceSystem } ] }

end gardenerscheduler

/-! ## Go standard library: package `net`

The functions `net.ParseIP` and `net.IP.To4` that `GetDNSRecordType` calls belong to the Go
standard library.  `To4` and the parser of Go 1.20 (`net/ip.go`, `net/parse.go`) are written
out here on the characters of the string; `GetDNSRecordType` itself takes the parser as a
parameter. -/

/-- The type `net.IP`, a byte slice; a `nil` result is `none`. -/
abbrev IP := List Nat

/-- Function `net.IPv4(a, b, c, d)`: the 16-byte form of an IPv4 address. -/
def IPv4 (a b c d : Nat) : IP :=
  [0, 0, 0, 0, 0, 0, 0, 0, 0, 0, 0xff, 0xff, a, b, c, d]

/-- Method `net.IP.To4`: the 4-byte form of an IPv4 address, or `nil` when the address is not
an IPv4 address. -/
def To4 (ip : IP) : Option IP :=
  if ip.length = 4 then some ip
  else if ip.length = 16 ∧ (ip.take 10).all (fun b => b = 0) = true
      ∧ ip.get? 10 = some 0xff ∧ ip.get? 11 = some 0xff then
    some (ip.drop 12)
  else none

/-- Constant `big` of `net/parse.go`. -/
def big : Nat := 0xFFFFFF

/-- The loop of `dtoi`: `n` is the number read so far and `i` the number of characters
consumed. -/
def dtoiLoop : List Char → Nat → Nat → Nat × Nat × Bool
  | [], n, i => if i = 0 then (0, 0, false) else (n, i, true)
  | ch :: rest, n, i =>
    if '0' ≤ ch ∧ ch ≤ '9' then
      if n * 10 + (ch.toNat - '0'.toNat) ≥ big then (big, i, false)
      else dtoiLoop rest (n * 10 + (ch.toNat - '0'.toNat)) (i + 1)
    else if i = 0 then (0, 0, false) else (n, i, true)

/-- Function `dtoi` of `net/parse.go`: decimal to integer; returns the number, the characters
consumed, and success. -/
def dtoi (s : List Char) : Nat × Nat × Bool := dtoiLoop s 0 0

/-- The loop of `xtoi`. -/
def xtoiLoop : List Char → Nat → Nat → Nat × Nat × Bool
  | [], n, i => if i = 0 then (0, i, false) else (n, i, true)
  | ch :: rest, n, i =>
    if '0' ≤ ch ∧ ch ≤ '9' then
      if n * 16 + (ch.toNat - '0'.toNat) ≥ big then (0, i, false)
      else xtoiLoop rest (n * 16 + (ch.toNat - '0'.toNat)) (i + 1)
    else if 'a' ≤ ch ∧ ch ≤ 'f' then
      if n * 16 + (ch.toNat - 'a'.toNat + 10) ≥ big then (0, i, false)
      else xtoiLoop rest (n * 16 + (ch.toNat - 'a'.toNat + 10)) (i + 1)
    else if 'A' ≤ ch ∧ ch ≤ 'F' then
      if n * 16 + (ch.toNat - 'A'.toNat + 10) ≥ big then (0, i, false)
      else xtoiLoop rest (n * 16 + (ch.toNat - 'A'.toNat + 10)) (i + 1)
    else if i = 0 then (0, i, false) else (n, i, true)

/-- Function `xtoi` of `net/parse.go`: hexadecimal to integer. -/
def xtoi (s : List Char) : Nat × Nat × Bool := xtoiLoop s 0 0

/-- One round of the loop of `parseIPv4`, for octet number `i`: the octet and the rest of the
string, or `none` where the function returns `nil`. -/
def parseIPv4Octet (i : Nat) (s : List Char) : Option (Nat × List Char) :=
  match s with
  | [] => none
  | first :: rest =>
    if i > 0 ∧ first ≠ '.' then none
    else
      match dtoi (if i > 0 then rest else s) with
      | (n, c, ok) =>
        if ok = false ∨ n > 0xFF then none
        else if c > 1 ∧ (if i > 0 then rest else s).head? = some '0' then none
        else some (n, (if i > 0 then rest else s).drop c)

/-- Function `parseIPv4` of `net/ip.go`: an address `d.d.d.d`. -/
def parseIPv4 (s : List Char) : Option IP :=
  match parseIPv4Octet 0 s with
  | none => none
  | some (p0, s1) =>
    match parseIPv4Octet 1 s1 with
    | none => none
    | some (p1, s2) =>
      match parseIPv4Octet 2 s2 with
      | none => none
      | some (p2, s3) =>
        match parseIPv4Octet 3 s3 with
        | none => none
        | some (p3, s4) => if s4 ≠ [] then none else some (IPv4 p0 p1 p2 p3)

/-- The main loop of `parseIPv6`: `ip` holds the bytes written so far (their number is the
index `i` of the Go code), `ellipsis` the position of the ellipsis, `s` the rest of the string.
Each round writes two bytes and the loop runs while fewer than 16 are written, so 8 rounds are
all it can make.  The result is `none` where the function returns `nil`, and otherwise the
state in which the loop is left. -/
def parseIPv6Loop : Nat → IP → Option Nat → List Char → Option (IP × Option Nat × List Char)
  | 0, ip, ellipsis, s => some (ip, ellipsis, s)
  | rounds + 1, ip, ellipsis, s =>
    if ip.length ≥ 16 then some (ip, ellipsis, s)
    else
      match xtoi s with
      | (n, c, ok) =>
        if ok = false ∨ n > 0xFFFF then none
        else if c < s.length ∧ s.get? c = some '.' then
          if ellipsis = none ∧ ip.length ≠ 16 - 4 then none
          else if ip.length + 4 > 16 then none
          else
            match parseIPv4 s with
            | none => none
            | some ip4 => some (ip ++ ip4.drop 12, ellipsis, [])
        else
          match s.drop c with
          | [] => some (ip ++ [n / 256 % 256, n % 256], ellipsis, [])
          | ch :: s1 =>
            if ch ≠ ':' ∨ s1 = [] then none
            else
              match s1 with
              | ':' :: s2 =>
                if ellipsis ≠ none then none
                else if s2 = [] then
                  some (ip ++ [n / 256 % 256, n % 256], some (ip.length + 2), [])
                else
                  parseIPv6Loop rounds (ip ++ [n / 256 % 256, n % 256])
                    (some (ip.length + 2)) s2
              | _ =>
                parseIPv6Loop rounds (ip ++ [n / 256 % 256, n % 256]) ellipsis s1

/-- The end of `parseIPv6`, after the loop: the whole string must be used, and a short address
is filled with zero bytes at the ellipsis. -/
def parseIPv6Finish : Option (IP × Option Nat × List Char) → Option IP
  | none => none
  | some (ip, ellipsis, s) =>
    if s ≠ [] then none
    else if ip.length < 16 then
      match ellipsis with
      | none => none
      | some e => some (ip.take e ++ List.replicate (16 - ip.length) 0 ++ ip.drop e)
    else if ellipsis ≠ none then none
    else some ip

/-- Function `parseIPv6` of `net/ip.go`: a literal IPv6 address. -/
def parseIPv6 (s : List Char) : Option IP :=
  match s with
  | ':' :: ':' :: rest =>
    if rest = [] then some (List.replicate 16 0)
    else parseIPv6Finish (parseIPv6Loop 8 [] (some 0) rest)
  | _ => parseIPv6Finish (parseIPv6Loop 8 [] none s)

/-- The loop of `net.ParseIP` over the characters of `whole`: the first `.` sends the string
to `parseIPv4`, the first `:` to `parseIPv6`. -/
def ParseIPScan (whole : List Char) : List Char → Option IP
  | [] => none
  | ch :: rest =>
    if ch = '.' then parseIPv4 whole
    else if ch = ':' then parseIPv6 whole
    else ParseIPScan whole rest

/-- Function `net.ParseIP` of Go 1.20. -/
def ParseIP (s : String) : Option IP := ParseIPScan s.data s.data

/-! ## `pkg/apis/extensions/v1alpha1/helper/helper.go` -/

namespace helper

/-- The fields of `extensionsv1alpha1.WorkerPool` read by `ClusterAutoscalerRequired`
(both `int32`; they are only compared). -/
structure WorkerPool where
  Maximum : Int
  Minimum : Int
  deriving DecidableEq, Repr

/-- Function `ClusterAutoscalerRequired`: the range loop with its early return. -/
def ClusterAutoscalerRequired : List WorkerPool → Bool
  | [] => false
  | pool :: pools =>
    if pool.Maximum > pool.Minimum then true else ClusterAutoscalerRequired pools

/-- The three constants of type `extensionsv1alpha1.DNSRecordType` (a string type) that
`GetDNSRecordType` returns.  They are declared outside the analysed files, so their values are
parameters. -/
structure DNSRecordTypes where
  /-- Constant `extensionsv1alpha1.DNSRecordTypeA`. -/
  DNSRecordTypeA : String
  /-- Constant `extensionsv1alpha1.DNSRecordTypeAAAA`. -/
  DNSRecordTypeAAAA : String
  /-- Constant `extensionsv1alpha1.DNSRecordTypeCNAME`. -/
  DNSRecordTypeCNAME : String
  deriving DecidableEq, Repr

/-- Function `GetDNSRecordType`, with `net.ParseIP` as the parameter `parseIP`. -/
def GetDNSRecordType (t : DNSRecordTypes) (parseIP : String → Option IP) (address : String) :
    String :=
  match parseIP address with
  | some ip =>
    match To4 ip with
    | some _ => t.DNSRecordTypeA
    | none => t.DNSRecordTypeAAAA
  | none => t.DNSRecordTypeCNAME

end helper

/-! ## Concrete inputs

Values on which the definitions are evaluated.  The constants are those of the upstream
packages that the analysed files import. -/

/-- A concrete choice of the imported constants. -/
def exampleConstants : Constants :=
  { SecretNamePrefixShootAccess := "shoot-access-",
    SecretNameCACluster := "ca",
    KubeNodeLease := "kube-node-lease",
    prefixDependencyWatchdog := "dependency-watchdog",
    DataKeyCertificateBundle := "bundle.crt",
    LabelValueGardener := "gardener",
    gardencoreGroupName := "core.gardener.cloud",
    SchedulerDefaultLockObjectName := "gardener-scheduler-leader-election",
    GetLabels := [("app", "gardener"), ("role", "scheduler")] }

/-- The component for namespace `shoot--foo--bar` and server `https://10.0.0.1:443`. -/
def exampleAccess : dependencywatchdog.dependencyWatchdogAccess :=
  { Namespace := "shoot--foo--bar", values := { ServerInCluster := "https://10.0.0.1:443" } }

/-- A CA secret with a certificate bundle and a further entry. -/
def exampleCA : Secret := { Data := [("ca.key", [7]), ("bundle.crt", [45, 45, 66])] }

/-- A secrets manager that holds `exampleCA` under the name `ca`. -/
def exampleGet : String → Option Secret :=
  fun name => if name = "ca" then some exampleCA else none

/-- A CA secret with the certificate bundle of `exampleCA` and another key entry. -/
def rotatedKeyCA : Secret := { Data := [("bundle.crt", [45, 45, 66]), ("ca.key", [9])] }

/-- A secrets manager that holds `rotatedKeyCA` under the name `ca`. -/
def rotatedKeyGet : String → Option Secret :=
  fun name => if name = "ca" then some rotatedKeyCA else none

/-- A secrets manager that holds nothing. -/
def emptyGet : String → Option Secret := fun _ => none

/-- A serializer that keeps the object list as the payload. -/
def listSerialize : List Object → Except GoError (List Object) := Except.ok

/-- A recording client whose calls all succeed. -/
def allSucceed {π : Type} : Call π → Option GoError := fun _ => none

/-- A recording client whose credential reconcile fails and whose other calls succeed. -/
def reconcileFails {π : Type} : Call π → Option GoError
  | Call.Reconcile _ => some (GoError.other "conflict")
  | _ => none

/-- A serializer that rejects every object list. -/
def serializeFails : List Object → Except GoError (List Object) :=
  fun _ => Except.error (GoError.other "encoding")

/-- A target cluster API without errors. -/
def noFaults : Faults := fun _ _ => none

/-- A payload written into the single secret `managedresource-<name>`. -/
def singleSecret : Chunking (List Object) :=
  { first := fun name data => ("managedresource-" ++ name, data),
    more := fun _ _ => [] }

/-- The empty target cluster. -/
def emptyCluster : ClusterState (List Object) := fun _ => none

/-- The spec's cluster with the example secrets manager, one backing secret per bundle and no
API errors. -/
def exampleSpecEnv : Env (ClusterState (List Object)) (List Object) :=
  specEnv exampleGet listSerialize singleSecret noFaults

/-- The key of the credential secret of the example. -/
def exampleCredentialKey : ObjectKey :=
  { Kind := ObjectKind.Secret, Namespace := "shoot--foo--bar",
    Name := "shoot-access-dependency-watchdog-probe" }

/-- The key of the bundle record of the example. -/
def exampleBundleKey : ObjectKey :=
  { Kind := ObjectKind.ManagedResource, Namespace := "shoot--foo--bar",
    Name := "shoot-core-dependency-watchdog" }

/-- The key of the backing secret of the example bundle. -/
def exampleBackingKey : ObjectKey :=
  { Kind := ObjectKind.Secret, Namespace := "shoot--foo--bar",
    Name := "managedresource-shoot-core-dependency-watchdog" }

/-- The DNS record type constants with the values `A`, `AAAA` and `CNAME`. -/
def exampleRecordTypes : helper.DNSRecordTypes :=
  { DNSRecordTypeA := "A", DNSRecordTypeAAAA := "AAAA", DNSRecordTypeCNAME := "CNAME" }

/-! ## Shared lemmas -/

open dependencywatchdog

theorem stringsTrimPrefix_append (pre rest : String) :
    stringsTrimPrefix (pre ++ rest) pre = rest := by
  unfold stringsTrimPrefix
  have h : pre.data.isPrefixOf (pre ++ rest).data = true := by
    rw [String.data_append]
    exact List.isPrefixOf_iff_prefix.mpr (List.prefix_append _ _)
  rw [if_pos h, String.data_append, List.drop_left]

/-- The calls `Deploy` makes on a recording client once the CA secret is found, the credential
reconcile succeeds and the serializer returns a payload. -/
theorem Deploy_recorded {π : Type} (c : Constants) (get : String → Option Secret)
    (serialize : List Object → Except GoError π) (answer : Call π → Option GoError)
    (d : dependencyWatchdogAccess) (log : List (Call π)) (caSecret : Secret) (data : π)
    (hca : get c.SecretNameCACluster = some caSecret)
    (hrec : answer (Call.Reconcile (shootAccessSecret c d caSecret)) = none)
    (hser : serialize [Object.role (role c), Object.roleBinding (roleBinding c)]
      = Except.ok data) :
    Deploy c (recordingEnv get serialize answer) d log
      = (answer (Call.CreateForShoot d.Namespace managedResourceTargetName c.LabelValueGardener
            false data),
          log ++ [Call.Reconcile (shootAccessSecret c d caSecret),
            Call.CreateForShoot d.Namespace managedResourceTargetName c.LabelValueGardener
              false data]) := by
  simp [Deploy, recordingEnv, hca, hrec, hser]

theorem ClusterState.put_same {π : Type} (cl : ClusterState π) (k : ObjectKey) (v : Stored π)
    (h : cl k = some v) : cl.put k v = cl := by
  funext k1
  unfold ClusterState.put
  split
  · next hk => rw [hk, h]
  · rfl

/-- A successful `ApplyAll` leaves the cluster with all objects written in order. -/
theorem ApplyAll_success {π : Type} (faults : Faults) (kvs : List (ObjectKey × Stored π))
    (cl : ClusterState π) (h : (ApplyAll faults kvs cl).1 = none) :
    (ApplyAll faults kvs cl).2 = putAll kvs cl := by
  induction kvs generalizing cl with
  | nil => rfl
  | cons kv rest ih =>
    obtain ⟨k, v⟩ := kv
    unfold ApplyAll Apply at h ⊢
    cases hf : faults WriteVerb.apply k with
    | some err => simp [hf] at h
    | none =>
      simp only [hf] at h ⊢
      rw [ih _ h]
      rfl

/-- Each key of the cluster after `putAll` holds the last object written under it, or what it
held before when nothing was written under it. -/
theorem putAll_apply {π : Type} (kvs : List (ObjectKey × Stored π)) (cl : ClusterState π)
    (k : ObjectKey) :
    putAll kvs cl k
      = match putAll kvs (fun _ => none) k with
        | some v => some v
        | none => cl k := by
  induction kvs generalizing cl with
  | nil => rfl
  | cons kv rest ih =>
    obtain ⟨k0, v0⟩ := kv
    simp only [putAll]
    rw [ih (cl.put k0 v0), ih (ClusterState.put (fun _ => none) k0 v0)]
    cases putAll rest (fun _ => none) k with
    | some v => rfl
    | none =>
      simp only [ClusterState.put]
      split <;> rfl

/-- Writing the same objects a second time changes nothing. -/
theorem putAll_idempotent {π : Type} (kvs : List (ObjectKey × Stored π))
    (cl : ClusterState π) : putAll kvs (putAll kvs cl) = putAll kvs cl := by
  funext k
  rw [putAll_apply kvs (putAll kvs cl) k, putAll_apply kvs cl k]
  cases putAll kvs (fun _ => none) k <;> rfl

theorem putAll_not_mem {π : Type} (kvs : List (ObjectKey × Stored π)) (cl : ClusterState π)
    (k : ObjectKey) (h : k ∉ kvs.map Prod.fst) : putAll kvs cl k = cl k := by
  induction kvs generalizing cl with
  | nil => rfl
  | cons kv rest ih =>
    obtain ⟨k0, v0⟩ := kv
    simp only [List.map_cons, List.mem_cons, not_or] at h
    simp only [putAll]
    rw [ih _ h.2]
    simp [ClusterState.put, h.1]

/-- With pairwise distinct keys, each written object is stored after `putAll`. -/
theorem putAll_mem {π : Type} (kvs : List (ObjectKey × Stored π)) (cl : ClusterState π)
    (hnodup : (kvs.map Prod.fst).Nodup) (k : ObjectKey) (v : Stored π) (h : (k, v) ∈ kvs) :
    putAll kvs cl k = some v := by
  induction kvs generalizing cl with
  | nil => simp at h
  | cons kv rest ih =>
    obtain ⟨k0, v0⟩ := kv
    simp only [List.map_cons, List.nodup_cons] at hnodup
    simp only [putAll]
    rcases List.mem_cons.mp h with heq | hrest
    · cases heq
      rw [putAll_not_mem rest _ k hnodup.1]
      simp [ClusterState.put]
    · exact ih _ hnodup.2 hrest

/-- Applying objects that are all stored already leaves the cluster as it is, whether or not
a call fails. -/
theorem ApplyAll_stored {π : Type} (faults : Faults) (kvs : List (ObjectKey × Stored π))
    (cl : ClusterState π) (h : ∀ kv ∈ kvs, cl kv.1 = some kv.2) :
    (ApplyAll faults kvs cl).2 = cl := by
  induction kvs with
  | nil => rfl
  | cons kv rest ih =>
    obtain ⟨k, v⟩ := kv
    unfold ApplyAll Apply
    cases hf : faults WriteVerb.apply k with
    | some err => rfl
    | none =>
      simp only []
      rw [ClusterState.put_same cl k v (h (k, v) (List.mem_cons_self _ _))]
      exact ih (fun kv hkv => h kv (List.mem_cons_of_mem _ hkv))

/-- Every key that `putAll` writes under holds an object afterwards. -/
theorem putAll_isSome {π : Type} (kvs : List (ObjectKey × Stored π)) (cl : ClusterState π)
    (k : ObjectKey) (h : k ∈ kvs.map Prod.fst) : ∃ v, putAll kvs cl k = some v := by
  induction kvs generalizing cl with
  | nil => simp at h
  | cons kv rest ih =>
    obtain ⟨k0, v0⟩ := kv
    simp only [putAll]
    by_cases hrest : k ∈ rest.map Prod.fst
    · exact ih _ hrest
    · simp only [List.map_cons, List.mem_cons] at h
      rcases h with heq | hmem
      · subst heq
        exact ⟨v0, by rw [putAll_not_mem rest _ _ hrest]; simp [ClusterState.put]⟩
      · exact absurd hmem hrest

/-- On a cluster that behaves as the spec describes, `Deploy` is the ordered write of
`deployWrites` once the CA secret is found and the serializer returns a payload. -/
theorem Deploy_specEnv {π : Type} (c : Constants) (get : String → Option Secret)
    (serialize : List Object → Except GoError π) (ch : Chunking π) (faults : Faults)
    (d : dependencyWatchdogAccess) (cl : ClusterState π) (caSecret : Secret) (data : π)
    (hca : get c.SecretNameCACluster = some caSecret)
    (hser : serialize [Object.role (role c), Object.roleBinding (roleBinding c)]
      = Except.ok data) :
    Deploy c (specEnv get serialize ch faults) d cl
      = ApplyAll faults (deployWrites c ch d caSecret data) cl := by
  simp only [Deploy, specEnv, hca, hser, deployWrites, ApplyAll, ReconcileCredential,
    CreateForTarget]
  cases Apply faults _ _ cl with
  | mk res cl1 => cases res <;> rfl

/-- The credential depends on the CA secret only through its certificate-bundle entry. -/
theorem shootAccessSecret_congr (c : Constants) (d : dependencyWatchdogAccess)
    (ca1 ca2 : Secret)
    (h : Secret.index ca1.Data c.DataKeyCertificateBundle
      = Secret.index ca2.Data c.DataKeyCertificateBundle) :
    shootAccessSecret c d ca1 = shootAccessSecret c d ca2 := by
  simp [shootAccessSecret, h]

/-- On a cluster that behaves as the spec describes, for every way of splitting the payload
whose first backing secret is not named like the credential secret: after a `Deploy` and a
`Destroy` that both return `nil`, the first backing secret of the bundle is still stored. -/
theorem Destroy_keeps_first_backing_secret {π : Type} (c : Constants)
    (get : String → Option Secret) (serialize : List Object → Except GoError π)
    (ch : Chunking π) (faults1 faults2 : Faults) (d : dependencyWatchdogAccess)
    (cl : ClusterState π) (caSecret : Secret) (data : π)
    (hca : get c.SecretNameCACluster = some caSecret)
    (hser : serialize [Object.role (role c), Object.roleBinding (roleBinding c)]
      = Except.ok data)
    (hname : (ch.first managedResourceTargetName data).1 ≠ KubeConfigSecretName c)
    (hdeploy : (Deploy c (specEnv get serialize ch faults1) d cl).1 = none)
    (hdestroy : (Destroy c (specEnv get serialize ch faults2) d
      (Deploy c (specEnv get serialize ch faults1) d cl).2).1 = none) :
    ∃ v, (Destroy c (specEnv get serialize ch faults2) d
        (Deploy c (specEnv get serialize ch faults1) d cl).2).2
          { Kind := ObjectKind.Secret, Namespace := d.Namespace,
            Name := (ch.first managedResourceTargetName data).1 } = some v := by
  rw [Deploy_specEnv c get serialize ch faults1 d cl caSecret data hca hser] at hdeploy hdestroy ⊢
  rw [ApplyAll_success faults1 _ cl hdeploy] at hdestroy ⊢
  obtain ⟨v, hv⟩ := putAll_isSome (deployWrites c ch d caSecret data) cl
    { Kind := ObjectKind.Secret, Namespace := d.Namespace,
      Name := (ch.first managedResourceTargetName data).1 }
    (by simp [deployWrites, bundleObjects, Chunking.secrets])
  refine ⟨v, ?_⟩
  simp only [Destroy, specEnv, DeleteAll, Delete] at hdestroy ⊢
  cases hf1 : faults2 WriteVerb.delete
      { Kind := ObjectKind.Secret, Namespace := d.Namespace, Name := KubeConfigSecretName c } with
  | some err => simp [hf1] at hdestroy
  | none =>
    cases hf2 : faults2 WriteVerb.delete
        { Kind := ObjectKind.ManagedResource, Namespace := d.Namespace,
          Name := managedResourceTargetName } with
    | some err => simp [hf1, hf2] at hdestroy
    | none =>
      simp only [hf1, hf2, ClusterState.remove]
      simp [hname, hv]

/-- The characters that `dtoi` consumes are decimal digits. -/
theorem dtoiLoop_digits (s : List Char) (n i m c : Nat) (h : dtoiLoop s n i = (m, c, true)) :
    i ≤ c ∧ ∀ ch ∈ s.take (c - i), '0' ≤ ch ∧ ch ≤ '9' := by
  induction s generalizing n i with
  | nil =>
    unfold dtoiLoop at h
    by_cases hi : i = 0
    · simp [hi] at h
    · simp only [hi, if_false, Prod.mk.injEq] at h
      obtain ⟨-, hc, -⟩ := h
      subst hc
      simp
  | cons ch rest ih =>
    unfold dtoiLoop at h
    by_cases hd : '0' ≤ ch ∧ ch ≤ '9'
    · rw [if_pos hd] at h
      by_cases hbig : n * 10 + (ch.toNat - '0'.toNat) ≥ big
      · rw [if_pos hbig] at h
        simp at h
      · rw [if_neg hbig] at h
        obtain ⟨hle, hall⟩ := ih _ _ h
        refine ⟨by omega, ?_⟩
        have hc : c - i = (c - (i + 1)) + 1 := by omega
        rw [hc, List.take_succ_cons]
        intro x hx
        rcases List.mem_cons.mp hx with rfl | hx
        · exact hd
        · exact hall x hx
    · rw [if_neg hd] at h
      by_cases hi : i = 0
      · simp [hi] at h
      · simp only [hi, if_false, Prod.mk.injEq] at h
        obtain ⟨-, hc, -⟩ := h
        subst hc
        simp

/-- Each character that one round of `parseIPv4` passes over is a digit or a dot. -/
theorem parseIPv4Octet_chars (i : Nat) (s rest : List Char) (n : Nat)
    (h : parseIPv4Octet i s = some (n, rest)) :
    ∀ ch ∈ s, ('0' ≤ ch ∧ ch ≤ '9') ∨ ch = '.' ∨ ch ∈ rest := by
  cases s with
  | nil => simp [parseIPv4Octet] at h
  | cons first tl =>
    have key : ∀ s1 : List Char, ∀ m c : Nat, dtoi s1 = (m, c, true) →
        ∀ ch ∈ s1, ('0' ≤ ch ∧ ch ≤ '9') ∨ ch = '.' ∨ ch ∈ s1.drop c := by
      intro s1 m c hd ch hch
      obtain ⟨-, hall⟩ := dtoiLoop_digits s1 0 0 m c hd
      rw [← List.take_append_drop c s1] at hch
      rcases List.mem_append.mp hch with h1 | h2
      · exact Or.inl (hall ch (by simpa using h1))
      · exact Or.inr (Or.inr h2)
    unfold parseIPv4Octet at h
    by_cases hi : i > 0
    · by_cases hf : first ≠ '.'
      · simp [hi, hf] at h
      · have hf1 : first = '.' := not_not.mp hf
        simp only [hi, hf1, ne_eq, not_true_eq_false, and_false, if_false, if_true] at h
        rcases hd : dtoi tl with ⟨m, c, ok⟩
        rw [hd] at h
        cases ok with
        | false => simp at h
        | true =>
          intro ch hch
          rcases List.mem_cons.mp hch with rfl | hch
          · exact Or.inr (Or.inl hf1)
          · split at h
            · simp at h
            · split at h
              · simp at h
              · simp only [Option.some.injEq, Prod.mk.injEq] at h
                rw [← h.2]
                exact key tl m c hd ch hch
    · simp only [hi, false_and, if_false] at h
      rcases hd : dtoi (first :: tl) with ⟨m, c, ok⟩
      rw [hd] at h
      cases ok with
      | false => simp at h
      | true =>
        intro ch hch
        split at h
        · simp at h
        · split at h
          · simp at h
          · simp only [Option.some.injEq, Prod.mk.injEq] at h
            rw [← h.2]
            exact key (first :: tl) m c hd ch hch

/-- A string that `parseIPv4` accepts consists of digits and dots. -/
theorem parseIPv4_chars (s : List Char) (ip : IP) (h : parseIPv4 s = some ip) :
    ∀ ch ∈ s, ('0' ≤ ch ∧ ch ≤ '9') ∨ ch = '.' := by
  unfold parseIPv4 at h
  rcases h0 : parseIPv4Octet 0 s with _ | ⟨p0, s1⟩
  · simp [h0] at h
  rcases h1 : parseIPv4Octet 1 s1 with _ | ⟨p1, s2⟩
  · simp [h0, h1] at h
  rcases h2 : parseIPv4Octet 2 s2 with _ | ⟨p2, s3⟩
  · simp [h0, h1, h2] at h
  rcases h3 : parseIPv4Octet 3 s3 with _ | ⟨p3, s4⟩
  · simp [h0, h1, h2, h3] at h
  simp only [h0, h1, h2, h3] at h
  by_cases h4 : s4 = []
  · subst h4
    intro ch hch
    rcases parseIPv4Octet_chars 0 s s1 p0 h0 ch hch with hd | hd | hch
    · exact Or.inl hd
    · exact Or.inr hd
    rcases parseIPv4Octet_chars 1 s1 s2 p1 h1 ch hch with hd | hd | hch
    · exact Or.inl hd
    · exact Or.inr hd
    rcases parseIPv4Octet_chars 2 s2 s3 p2 h2 ch hch with hd | hd | hch
    · exact Or.inl hd
    · exact Or.inr hd
    rcases parseIPv4Octet_chars 3 s3 [] p3 h3 ch hch with hd | hd | hch
    · exact Or.inl hd
    · exact Or.inr hd
    · simp at hch
  · simp [h4] at h

/-- Without a colon, `net.ParseIP` returns `nil` or what `parseIPv4` returns. -/
theorem ParseIPScan_no_colon (whole s : List Char) (h : ':' ∉ s) :
    ParseIPScan whole s = none ∨ ParseIPScan whole s = parseIPv4 whole := by
  induction s with
  | nil => exact Or.inl rfl
  | cons ch rest ih =>
    simp only [List.mem_cons, not_or] at h
    unfold ParseIPScan
    by_cases hdot : ch = '.'
    · simp [hdot]
    · have hcolon : ch ≠ ':' := fun e => h.1 e.symm
      simp only [hdot, hcolon, if_false]
      exact ih h.2

/-- A string with neither a dot nor a colon does not parse as an IP address. -/
theorem ParseIP_no_separator (whole s : List Char) (hdot : '.' ∉ s) (hcolon : ':' ∉ s) :
    ParseIPScan whole s = none := by
  induction s with
  | nil => rfl
  | cons ch rest ih =>
    simp only [List.mem_cons, not_or] at hdot hcolon
    unfold ParseIPScan
    have h1 : ch ≠ '.' := fun e => hdot.1 e.symm
    have h2 : ch ≠ ':' := fun e => hcolon.1 e.symm
    simp only [h1, h2, if_false]
    exact ih hdot.2 hcolon.2

/-- A string without a colon that has a character other than a digit or a dot does not parse
as an IP address. -/
theorem ParseIP_host_name (host : String) (hcolon : ':' ∉ host.data)
    (hletter : ∃ ch ∈ host.data, ¬ ('0' ≤ ch ∧ ch ≤ '9') ∧ ch ≠ '.') :
    ParseIP host = none := by
  unfold ParseIP
  rcases ParseIPScan_no_colon host.data host.data hcolon with h | h
  · exact h
  · rw [h]
    cases hp : parseIPv4 host.data with
    | none => rfl
    | some ip =>
      obtain ⟨ch, hmem, hnd, hndot⟩ := hletter
      rcases parseIPv4_chars host.data ip hp ch hmem with hd | hd
      · exact absurd hd hnd
      · exact absurd hd hndot

/-! ## Claims -/

/-- C1: when the secrets manager holds no secret under the cluster-CA name, `Deploy` returns the
error built by `fmt.Errorf("secret %q not found", SecretNameCACluster)`, which is not `nil` and
names that secret, and it returns the cluster state it was given: no collaborator that writes
to the cluster is called. -/
theorem Deploy_missing_CA {σ π : Type} (c : Constants) (env : Env σ π)
    (d : dependencyWatchdogAccess) (cl : σ)
    (h : env.secretsManagerGet c.SecretNameCACluster = none) :
    Deploy c env d cl
      = (some (GoError.Errorf "secret %q not found" [c.SecretNameCACluster]), cl) := by
  simp [Deploy, h]

theorem Deploy_missing_CA_witness :
    (recordingEnv emptyGet listSerialize allSucceed).secretsManagerGet
        exampleConstants.SecretNameCACluster = none
      ∧ Deploy exampleConstants (recordingEnv emptyGet listSerialize allSucceed) exampleAccess []
        = (some (GoError.Errorf "secret %q not found" ["ca"]), []) :=
  ⟨rfl, Deploy_missing_CA exampleConstants _ exampleAccess [] rfl⟩

/-- C3: whenever `Deploy` gets past the credential reconcile (the CA secret is found and the
reconcile returns `nil`), the objects it gives to the registry are a Role and a RoleBinding; the
Role is in the namespace `KubeNodeLease`, has exactly one rule, and that rule is for API group
`coordination.k8s.io`, resource `leases` and the verbs create, get, update, patch, list, and
nothing else. -/
theorem Deploy_role_rule (c : Constants) (get : String → Option Secret)
    (answer : Call (List Object) → Option GoError) (d : dependencyWatchdogAccess)
    (log : List (Call (List Object))) (caSecret : Secret)
    (hca : get c.SecretNameCACluster = some caSecret)
    (hrec : answer (Call.Reconcile (shootAccessSecret c d caSecret)) = none) :
    ∃ (cred : AccessSecret) (r : Role) (b : RoleBinding) (rule : PolicyRule),
      (Deploy c (recordingEnv get listSerialize answer) d log).2
          = log ++ [Call.Reconcile cred,
              Call.CreateForShoot d.Namespace managedResourceTargetName c.LabelValueGardener
                false [Object.role r, Object.roleBinding b]]
        ∧ r = role c
        ∧ r.ObjectMeta.Namespace = c.KubeNodeLease
        ∧ r.Rules = [rule]
        ∧ rule.APIGroups = ["coordination.k8s.io"]
        ∧ rule.Resources = ["leases"]
        ∧ rule.Verbs = ["create", "get", "update", "patch", "list"] := by
  refine ⟨shootAccessSecret c d caSecret, role c, roleBinding c, _, ?_, rfl, rfl, rfl, rfl,
    rfl, rfl⟩
  rw [Deploy_recorded c get listSerialize answer d log caSecret _ hca hrec rfl]

theorem Deploy_role_rule_witness :
    ∃ (cred : AccessSecret) (r : Role) (b : RoleBinding) (rule : PolicyRule),
      (Deploy exampleConstants (recordingEnv exampleGet listSerialize allSucceed)
          exampleAccess []).2
          = [] ++ [Call.Reconcile cred,
              Call.CreateForShoot "shoot--foo--bar" managedResourceTargetName "gardener"
                false [Object.role r, Object.roleBinding b]]
        ∧ r = role exampleConstants
        ∧ r.ObjectMeta.Namespace = "kube-node-lease"
        ∧ r.Rules = [rule]
        ∧ rule.APIGroups = ["coordination.k8s.io"]
        ∧ rule.Resources = ["leases"]
        ∧ rule.Verbs = ["create", "get", "update", "patch", "list"] :=
  Deploy_role_rule exampleConstants exampleGet allSucceed exampleAccess [] exampleCA rfl rfl

/-- C4, the claim as stated fails: the Role built for the example constants has a rule on
`leases` whose `ResourceNames` is empty, so it is not the case that every rule granting verbs on
leases names a lease object. -/
theorem role_lease_rule_not_name_scoped :
    ¬ (∀ rule ∈ (role exampleConstants).Rules,
        "leases" ∈ rule.Resources → rule.ResourceNames ≠ []) := by
  intro h
  exact h { APIGroups := ["coordination.k8s.io"], Resources := ["leases"],
            Verbs := ["create", "get", "update", "patch", "list"] }
    (List.mem_singleton.mpr rfl) (List.mem_singleton.mpr rfl) rfl

/-- C4, amended: the Role that `Deploy` gives to the registry is scoped by its namespace only.
It lives in `KubeNodeLease`, and each of its rules is on the resource `leases` with an empty
`ResourceNames` list, so the verbs are granted on every lease of that namespace and not on one
named lease. -/
theorem Deploy_role_namespace_scoped (c : Constants) (get : String → Option Secret)
    (answer : Call (List Object) → Option GoError) (d : dependencyWatchdogAccess)
    (log : List (Call (List Object))) (caSecret : Secret)
    (hca : get c.SecretNameCACluster = some caSecret)
    (hrec : answer (Call.Reconcile (shootAccessSecret c d caSecret)) = none) :
    ∃ (cred : AccessSecret) (r : Role) (b : RoleBinding),
      (Deploy c (recordingEnv get listSerialize answer) d log).2
          = log ++ [Call.Reconcile cred,
              Call.CreateForShoot d.Namespace managedResourceTargetName c.LabelValueGardener
                false [Object.role r, Object.roleBinding b]]
        ∧ r.ObjectMeta.Namespace = c.KubeNodeLease
        ∧ r.Rules ≠ []
        ∧ ∀ rule ∈ r.Rules, rule.Resources = ["leases"] ∧ rule.ResourceNames = [] := by
  refine ⟨shootAccessSecret c d caSecret, role c, roleBinding c, ?_, rfl, ?_, ?_⟩
  · rw [Deploy_recorded c get listSerialize answer d log caSecret _ hca hrec rfl]
  · simp [role]
  · intro rule hrule
    simp only [role, List.mem_singleton] at hrule
    subst hrule
    exact ⟨rfl, rfl⟩

theorem Deploy_role_namespace_scoped_witness :
    ∃ (cred : AccessSecret) (r : Role) (b : RoleBinding),
      (Deploy exampleConstants (recordingEnv exampleGet listSerialize allSucceed)
          exampleAccess []).2
          = [] ++ [Call.Reconcile cred,
              Call.CreateForShoot "shoot--foo--bar" managedResourceTargetName "gardener"
                false [Object.role r, Object.roleBinding b]]
        ∧ r.ObjectMeta.Namespace = "kube-node-lease"
        ∧ r.Rules ≠ []
        ∧ ∀ rule ∈ r.Rules, rule.Resources = ["leases"] ∧ rule.ResourceNames = [] :=
  Deploy_role_namespace_scoped exampleConstants exampleGet allSucceed exampleAccess []
    exampleCA rfl rfl

/-- C5: whenever `Deploy` returns `nil`, the calls it made are the credential reconcile followed
by one bundle write; the bundle is named `shoot-core-dependency-watchdog`, is written in the
component's namespace with origin `LabelValueGardener` and `keepObjects = false`, and its
payload is what the registry's serializer returns for the two-element list of the Role and the
RoleBinding, in that order; no secret is in that list. -/
theorem Deploy_bundle {π : Type} (c : Constants) (get : String → Option Secret)
    (serialize : List Object → Except GoError π) (answer : Call π → Option GoError)
    (d : dependencyWatchdogAccess) (log : List (Call π))
    (h : (Deploy c (recordingEnv get serialize answer) d log).1 = none) :
    ∃ (cred : AccessSecret) (objects : List Object) (data : π),
      objects = [Object.role (role c), Object.roleBinding (roleBinding c)]
        ∧ (∀ secret, Object.secret secret ∉ objects)
        ∧ serialize objects = Except.ok data
        ∧ (Deploy c (recordingEnv get serialize answer) d log).2
            = log ++ [Call.Reconcile cred,
                Call.CreateForShoot d.Namespace "shoot-core-dependency-watchdog"
                  c.LabelValueGardener false data] := by
  cases hca : get c.SecretNameCACluster with
  | none => simp [Deploy, recordingEnv, hca] at h
  | some caSecret =>
    cases hrec : answer (Call.Reconcile (shootAccessSecret c d caSecret)) with
    | some err => simp [Deploy, recordingEnv, hca, hrec] at h
    | none =>
      cases hser : serialize [Object.role (role c), Object.roleBinding (roleBinding c)] with
      | error err => simp [Deploy, recordingEnv, hca, hrec, hser] at h
      | ok data =>
        refine ⟨shootAccessSecret c d caSecret, _, data, rfl, ?_, hser, ?_⟩
        · intro secret hmem
          simp at hmem
        · rw [Deploy_recorded c get serialize answer d log caSecret data hca hrec hser]
          rfl

theorem Deploy_bundle_witness :
    (Deploy exampleConstants (recordingEnv exampleGet listSerialize allSucceed)
        exampleAccess []).1 = none
      ∧ ∃ (cred : AccessSecret) (objects : List Object) (data : List Object),
        objects = [Object.role (role exampleConstants),
            Object.roleBinding (roleBinding exampleConstants)]
          ∧ (∀ secret, Object.secret secret ∉ objects)
          ∧ listSerialize objects = Except.ok data
          ∧ (Deploy exampleConstants (recordingEnv exampleGet listSerialize allSucceed)
              exampleAccess []).2
              = [] ++ [Call.Reconcile cred,
                  Call.CreateForShoot "shoot--foo--bar" "shoot-core-dependency-watchdog"
                    "gardener" false data] :=
  ⟨rfl, Deploy_bundle exampleConstants exampleGet listSerialize allSucceed exampleAccess []
    rfl⟩

/-- C6: the bindings agree with their role and credential.  Whenever `Deploy` gets past the
credential reconcile, the RoleBinding it gives to the registry refers to kind `Role` in the rbac
API group by the name of the Role given in the same call, lies in that Role's namespace, and
has exactly one subject: a ServiceAccount in the system namespace whose name is the credential
secret name `KubeConfigSecretName` without the shoot-access prefix, which is
`dependency-watchdog-probe`.
For every service account name, `clusterRoleBinding` refers to kind `ClusterRole` in the rbac
API group by the name of the ClusterRole that `clusterRole` returns, and has exactly one
subject: a ServiceAccount of that name in the system namespace. -/
theorem bindings_consistent (c : Constants) :
    (∀ (get : String → Option Secret) (answer : Call (List Object) → Option GoError)
        (d : dependencyWatchdogAccess) (log : List (Call (List Object))) (caSecret : Secret),
        get c.SecretNameCACluster = some caSecret →
        answer (Call.Reconcile (shootAccessSecret c d caSecret)) = none →
        ∃ (cred : AccessSecret) (r : Role) (b : RoleBinding),
          (Deploy c (recordingEnv get listSerialize answer) d log).2
              = log ++ [Call.Reconcile cred,
                  Call.CreateForShoot d.Namespace managedResourceTargetName
                    c.LabelValueGardener false [Object.role r, Object.roleBinding b]]
            ∧ b.RoleRef
                = { APIGroup := "rbac.authorization.k8s.io", Kind := "Role",
                    Name := r.ObjectMeta.Name }
            ∧ b.ObjectMeta.Namespace = r.ObjectMeta.Namespace
            ∧ b.Subjects
                = [{ Kind := "ServiceAccount",
                     Name := stringsTrimPrefix (KubeConfigSecretName c)
                       c.SecretNamePrefixShootAccess,
                     Namespace := metav1NamespaceSystem }]
            ∧ stringsTrimPrefix (KubeConfigSecretName c) c.SecretNamePrefixShootAccess
                = "dependency-watchdog-probe")
      ∧ (∀ serviceAccountName : String,
          (gardenerscheduler.clusterRoleBinding c serviceAccountName).RoleRef
              = { APIGroup := "rbac.authorization.k8s.io", Kind := "ClusterRole",
                  Name := (gardenerscheduler.clusterRole c).ObjectMeta.Name }
            ∧ (gardenerscheduler.clusterRoleBinding c serviceAccountName).Subjects
                = [{ Kind := "ServiceAccount", Name := serviceAccountName,
                     Namespace := metav1NamespaceSystem }]) := by
  refine ⟨?_, fun _ => ⟨rfl, rfl⟩⟩
  intro get answer d log caSecret hca hrec
  refine ⟨shootAccessSecret c d caSecret, role c, roleBinding c, ?_, rfl, rfl, rfl, ?_⟩
  · rw [Deploy_recorded c get listSerialize answer d log caSecret _ hca hrec rfl]
  · exact stringsTrimPrefix_append _ _

theorem bindings_consistent_witness :
    ∃ (cred : AccessSecret) (r : Role) (b : RoleBinding),
      (Deploy exampleConstants (recordingEnv exampleGet listSerialize allSucceed)
          exampleAccess []).2
          = [] ++ [Call.Reconcile cred,
              Call.CreateForShoot "shoot--foo--bar" managedResourceTargetName
                "gardener" false [Object.role r, Object.roleBinding b]]
        ∧ b.RoleRef
            = { APIGroup := "rbac.authorization.k8s.io", Kind := "Role",
                Name := r.ObjectMeta.Name }
        ∧ b.ObjectMeta.Namespace = r.ObjectMeta.Namespace
        ∧ b.Subjects
            = [{ Kind := "ServiceAccount",
                 Name := stringsTrimPrefix (KubeConfigSecretName exampleConstants)
                   "shoot-access-",
                 Namespace := metav1NamespaceSystem }]
        ∧ stringsTrimPrefix (KubeConfigSecretName exampleConstants) "shoot-access-"
            = "dependency-watchdog-probe" :=
  (bindings_consistent exampleConstants).1 exampleGet allSucceed exampleAccess [] exampleCA
    rfl rfl

/-- C7: `Deploy` submits in a fixed order and passes every error on.  With the CA secret found,
the credential is reconciled first.  If that reconcile returns an error, `Deploy` returns the
same error and the cluster state the reconcile left, so no bundle is written.  If the reconcile
succeeds and the serializer returns an error, `Deploy` returns that error and again the state
the reconcile left.  Otherwise the result of `Deploy` is the result of the bundle write, made on
the state the reconcile left.  So `Deploy` returns `nil` exactly when the CA lookup, the
reconcile, the serialization and the bundle write all succeed. -/
theorem Deploy_order_and_errors {σ π : Type} (c : Constants) (env : Env σ π)
    (d : dependencyWatchdogAccess) (cl : σ) :
    (∀ caSecret, env.secretsManagerGet c.SecretNameCACluster = some caSecret →
        (∀ err, (env.Reconcile (shootAccessSecret c d caSecret) cl).1 = some err →
            Deploy c env d cl = (some err, (env.Reconcile (shootAccessSecret c d caSecret) cl).2))
          ∧ ((env.Reconcile (shootAccessSecret c d caSecret) cl).1 = none →
              (∀ err,
                  env.AddAllAndSerialize
                      [Object.role (role c), Object.roleBinding (roleBinding c)]
                    = Except.error err →
                  Deploy c env d cl
                    = (some err, (env.Reconcile (shootAccessSecret c d caSecret) cl).2))
                ∧ (∀ data,
                  env.AddAllAndSerialize
                      [Object.role (role c), Object.roleBinding (roleBinding c)]
                    = Except.ok data →
                  Deploy c env d cl
                    = env.CreateForShoot d.Namespace managedResourceTargetName
                        c.LabelValueGardener false data
                        (env.Reconcile (shootAccessSecret c d caSecret) cl).2)))
      ∧ ((Deploy c env d cl).1 = none ↔
          ∃ caSecret data,
            env.secretsManagerGet c.SecretNameCACluster = some caSecret
              ∧ (env.Reconcile (shootAccessSecret c d caSecret) cl).1 = none
              ∧ env.AddAllAndSerialize
                    [Object.role (role c), Object.roleBinding (roleBinding c)]
                  = Except.ok data
              ∧ (env.CreateForShoot d.Namespace managedResourceTargetName
                    c.LabelValueGardener false data
                    (env.Reconcile (shootAccessSecret c d caSecret) cl).2).1 = none) := by
  constructor
  · intro caSecret hca
    cases hrec : env.Reconcile (shootAccessSecret c d caSecret) cl with
    | mk res cl1 =>
      cases res with
      | some err0 =>
        refine ⟨?_, ?_⟩
        · intro err herr
          simp at herr
          subst herr
          simp [Deploy, hca, hrec]
        · intro hnone
          simp at hnone
      | none =>
        refine ⟨?_, fun _ => ⟨?_, ?_⟩⟩
        · intro err herr
          simp at herr
        · intro err hser
          simp [Deploy, hca, hrec, hser]
        · intro data hser
          simp [Deploy, hca, hrec, hser]
  · cases hca : env.secretsManagerGet c.SecretNameCACluster with
    | none => simp [Deploy, hca]
    | some caSecret =>
      cases hrec : env.Reconcile (shootAccessSecret c d caSecret) cl with
      | mk res cl1 =>
        cases res with
        | some err0 => simp [Deploy, hca, hrec]
        | none =>
          cases hser : env.AddAllAndSerialize
              [Object.role (role c), Object.roleBinding (roleBinding c)] with
          | error err => simp [Deploy, hca, hrec, hser]
          | ok data => simp [Deploy, hca, hrec, hser]

theorem Deploy_order_and_errors_witness :
    Deploy exampleConstants (recordingEnv exampleGet listSerialize reconcileFails)
        exampleAccess []
      = (some (GoError.other "conflict"),
          [Call.Reconcile (shootAccessSecret exampleConstants exampleAccess exampleCA)])
    ∧ Deploy exampleConstants (recordingEnv exampleGet serializeFails allSucceed)
        exampleAccess []
      = (some (GoError.other "encoding"),
          [Call.Reconcile (shootAccessSecret exampleConstants exampleAccess exampleCA)])
    ∧ Deploy exampleConstants (recordingEnv exampleGet listSerialize allSucceed)
        exampleAccess []
      = (none,
          [Call.Reconcile (shootAccessSecret exampleConstants exampleAccess exampleCA),
            Call.CreateForShoot "shoot--foo--bar" "shoot-core-dependency-watchdog" "gardener"
              false [Object.role (role exampleConstants),
                Object.roleBinding (roleBinding exampleConstants)]])
    ∧ (Deploy exampleConstants (recordingEnv exampleGet listSerialize allSucceed)
        exampleAccess []).1 = none :=
  ⟨((Deploy_order_and_errors exampleConstants
        (recordingEnv exampleGet listSerialize reconcileFails) exampleAccess []).1
      exampleCA rfl).1 (GoError.other "conflict") rfl,
    (((Deploy_order_and_errors exampleConstants
        (recordingEnv exampleGet serializeFails allSucceed) exampleAccess []).1
      exampleCA rfl).2 rfl).1 (GoError.other "encoding") rfl,
    (((Deploy_order_and_errors exampleConstants
        (recordingEnv exampleGet listSerialize allSucceed) exampleAccess []).1
      exampleCA rfl).2 rfl).2
      [Object.role (role exampleConstants), Object.roleBinding (roleBinding exampleConstants)]
      rfl,
    (Deploy_order_and_errors exampleConstants
        (recordingEnv exampleGet listSerialize allSucceed) exampleAccess []).2.mpr
      ⟨exampleCA,
        [Object.role (role exampleConstants), Object.roleBinding (roleBinding exampleConstants)],
        rfl, rfl, rfl, rfl⟩⟩

/-- C8, evaluated on a cluster that behaves as the spec describes: for namespace
`shoot--foo--bar`, server `https://10.0.0.1:443`, an existing CA secret, an empty cluster and no
API errors, `Deploy` returns `nil`, then `Destroy` returns `nil`; the credential secret and the
bundle record are gone, but the backing secret of the bundle, which was absent before `Deploy`
and written by it, is still stored after `Destroy`. -/
theorem Destroy_leaves_backing_secret :
    (Deploy exampleConstants exampleSpecEnv exampleAccess emptyCluster).1 = none
      ∧ (Destroy exampleConstants exampleSpecEnv exampleAccess
          (Deploy exampleConstants exampleSpecEnv exampleAccess emptyCluster).2).1 = none
      ∧ emptyCluster exampleBackingKey = none
      ∧ (Deploy exampleConstants exampleSpecEnv exampleAccess emptyCluster).2 exampleBackingKey
          = some (Stored.backing [Object.role (role exampleConstants),
              Object.roleBinding (roleBinding exampleConstants)])
      ∧ (Destroy exampleConstants exampleSpecEnv exampleAccess
          (Deploy exampleConstants exampleSpecEnv exampleAccess emptyCluster).2).2
            exampleCredentialKey = none
      ∧ (Destroy exampleConstants exampleSpecEnv exampleAccess
          (Deploy exampleConstants exampleSpecEnv exampleAccess emptyCluster).2).2
            exampleBundleKey = none
      ∧ (Destroy exampleConstants exampleSpecEnv exampleAccess
          (Deploy exampleConstants exampleSpecEnv exampleAccess emptyCluster).2).2
            exampleBackingKey
          = some (Stored.backing [Object.role (role exampleConstants),
              Object.roleBinding (roleBinding exampleConstants)]) := by
  refine ⟨rfl, rfl, rfl, ?_, ?_, ?_, ?_⟩ <;> decide

/-- C9: re-issuing access is idempotent.  First, what `Deploy` submits depends on the CA secret
only through its certificate-bundle entry and does not depend on the cluster: two runs in the
same namespace, with the same server address and with CA secrets that agree on the bundle
entry, return the same error and append the same calls, with the same arguments, to their
logs.  Second, on a cluster that behaves as the spec describes, when a first `Deploy` has
returned `nil`, a second `Deploy` with unchanged inputs that returns `nil` leaves the cluster
exactly as the first left it.  Third, when the objects `Deploy` writes have pairwise distinct
keys, the second `Deploy` leaves the cluster as the first left it whatever it returns. -/
theorem Deploy_idempotent {π : Type} (c : Constants)
    (serialize : List Object → Except GoError π) (ch : Chunking π)
    (d : dependencyWatchdogAccess) :
    (∀ (get1 get2 : String → Option Secret) (answer : Call π → Option GoError)
        (log1 log2 : List (Call π)) (ca1 ca2 : Secret),
        get1 c.SecretNameCACluster = some ca1 →
        get2 c.SecretNameCACluster = some ca2 →
        Secret.index ca1.Data c.DataKeyCertificateBundle
          = Secret.index ca2.Data c.DataKeyCertificateBundle →
        ∃ calls : List (Call π),
          (Deploy c (recordingEnv get1 serialize answer) d log1).2 = log1 ++ calls
            ∧ (Deploy c (recordingEnv get2 serialize answer) d log2).2 = log2 ++ calls
            ∧ (Deploy c (recordingEnv get1 serialize answer) d log1).1
                = (Deploy c (recordingEnv get2 serialize answer) d log2).1)
      ∧ (∀ (get1 get2 : String → Option Secret) (faults1 faults2 : Faults)
          (cl : ClusterState π) (ca1 ca2 : Secret),
          get1 c.SecretNameCACluster = some ca1 →
          get2 c.SecretNameCACluster = some ca2 →
          Secret.index ca1.Data c.DataKeyCertificateBundle
            = Secret.index ca2.Data c.DataKeyCertificateBundle →
          (Deploy c (specEnv get1 serialize ch faults1) d cl).1 = none →
          (Deploy c (specEnv get2 serialize ch faults2) d
              (Deploy c (specEnv get1 serialize ch faults1) d cl).2).1 = none →
          (Deploy c (specEnv get2 serialize ch faults2) d
              (Deploy c (specEnv get1 serialize ch faults1) d cl).2).2
            = (Deploy c (specEnv get1 serialize ch faults1) d cl).2)
      ∧ (∀ (get1 get2 : String → Option Secret) (faults1 faults2 : Faults)
          (cl : ClusterState π) (ca1 ca2 : Secret) (data : π),
          get1 c.SecretNameCACluster = some ca1 →
          get2 c.SecretNameCACluster = some ca2 →
          Secret.index ca1.Data c.DataKeyCertificateBundle
            = Secret.index ca2.Data c.DataKeyCertificateBundle →
          serialize [Object.role (role c), Object.roleBinding (roleBinding c)]
            = Except.ok data →
          ((deployWrites c ch d ca1 data).map Prod.fst).Nodup →
          (Deploy c (specEnv get1 serialize ch faults1) d cl).1 = none →
          (Deploy c (specEnv get2 serialize ch faults2) d
              (Deploy c (specEnv get1 serialize ch faults1) d cl).2).2
            = (Deploy c (specEnv get1 serialize ch faults1) d cl).2) := by
  refine ⟨?_, ?_, ?_⟩
  · intro get1 get2 answer log1 log2 ca1 ca2 h1 h2 hidx
    have hcred := shootAccessSecret_congr c d ca1 ca2 hidx
    cases hrec : answer (Call.Reconcile (shootAccessSecret c d ca2)) with
    | some err =>
      exact ⟨[Call.Reconcile (shootAccessSecret c d ca2)], by
        simp [Deploy, recordingEnv, h1, h2, hcred, hrec]⟩
    | none =>
      cases hser : serialize [Object.role (role c), Object.roleBinding (roleBinding c)] with
      | error err =>
        exact ⟨[Call.Reconcile (shootAccessSecret c d ca2)], by
          simp [Deploy, recordingEnv, h1, h2, hcred, hrec, hser]⟩
      | ok data =>
        exact ⟨[Call.Reconcile (shootAccessSecret c d ca2),
          Call.CreateForShoot d.Namespace managedResourceTargetName c.LabelValueGardener
            false data], by
          simp [Deploy, recordingEnv, h1, h2, hcred, hrec, hser]⟩
  · intro get1 get2 faults1 faults2 cl ca1 ca2 h1 h2 hidx hfirst hsecond
    cases hser : serialize [Object.role (role c), Object.roleBinding (roleBinding c)] with
    | error err =>
      exfalso
      simp only [Deploy, specEnv, h1, hser] at hfirst
      cases hrec : ReconcileCredential faults1 (shootAccessSecret c d ca1) cl with
      | mk res cl1 =>
        rw [hrec] at hfirst
        cases res <;> simp at hfirst
    | ok data =>
      have hw : deployWrites c ch d ca2 data = deployWrites c ch d ca1 data := by
        simp [deployWrites, shootAccessSecret_congr c d ca1 ca2 hidx]
      rw [Deploy_specEnv c get1 serialize ch faults1 d cl ca1 data h1 hser] at hfirst hsecond ⊢
      rw [Deploy_specEnv c get2 serialize ch faults2 d _ ca2 data h2 hser, hw] at hsecond ⊢
      rw [ApplyAll_success faults1 _ cl hfirst] at hsecond ⊢
      rw [ApplyAll_success faults2 _ _ hsecond]
      exact putAll_idempotent _ _
  · intro get1 get2 faults1 faults2 cl ca1 ca2 data h1 h2 hidx hser hnodup hfirst
    have hw : deployWrites c ch d ca2 data = deployWrites c ch d ca1 data := by
      simp [deployWrites, shootAccessSecret_congr c d ca1 ca2 hidx]
    rw [Deploy_specEnv c get1 serialize ch faults1 d cl ca1 data h1 hser] at hfirst ⊢
    rw [Deploy_specEnv c get2 serialize ch faults2 d _ ca2 data h2 hser, hw]
    rw [ApplyAll_success faults1 _ cl hfirst]
    apply ApplyAll_stored
    intro kv hkv
    exact putAll_mem _ cl hnodup kv.1 kv.2 hkv

theorem Deploy_idempotent_witness :
    (∃ calls : List (Call (List Object)),
        (Deploy exampleConstants (recordingEnv exampleGet listSerialize allSucceed)
            exampleAccess []).2 = [] ++ calls
          ∧ (Deploy exampleConstants (recordingEnv rotatedKeyGet listSerialize allSucceed)
              exampleAccess [Call.DeleteObjects []]).2 = [Call.DeleteObjects []] ++ calls
          ∧ (Deploy exampleConstants (recordingEnv exampleGet listSerialize allSucceed)
              exampleAccess []).1
            = (Deploy exampleConstants (recordingEnv rotatedKeyGet listSerialize allSucceed)
                exampleAccess [Call.DeleteObjects []]).1)
      ∧ (Deploy exampleConstants (specEnv rotatedKeyGet listSerialize singleSecret noFaults)
            exampleAccess
            (Deploy exampleConstants (specEnv exampleGet listSerialize singleSecret noFaults)
              exampleAccess emptyCluster).2).2
          = (Deploy exampleConstants (specEnv exampleGet listSerialize singleSecret noFaults)
              exampleAccess emptyCluster).2
      ∧ (Deploy exampleConstants
            (specEnv rotatedKeyGet listSerialize singleSecret
              (fun _ _ => some (GoError.other "cancelled")))
            exampleAccess
            (Deploy exampleConstants (specEnv exampleGet listSerialize singleSecret noFaults)
              exampleAccess emptyCluster).2).2
          = (Deploy exampleConstants (specEnv exampleGet listSerialize singleSecret noFaults)
              exampleAccess emptyCluster).2 :=
  ⟨(Deploy_idempotent exampleConstants listSerialize singleSecret exampleAccess).1
      exampleGet rotatedKeyGet allSucceed [] [Call.DeleteObjects []] exampleCA rotatedKeyCA
      rfl rfl rfl,
    (Deploy_idempotent exampleConstants listSerialize singleSecret exampleAccess).2.1
      exampleGet rotatedKeyGet noFaults noFaults emptyCluster exampleCA rotatedKeyCA
      rfl rfl rfl rfl rfl,
    (Deploy_idempotent exampleConstants listSerialize singleSecret exampleAccess).2.2
      exampleGet rotatedKeyGet noFaults (fun _ _ => some (GoError.other "cancelled"))
      emptyCluster exampleCA rotatedKeyCA _ rfl rfl rfl rfl (by decide) rfl⟩

/-- C10: `ClusterAutoscalerRequired` returns true exactly when some pool has `Maximum` strictly
greater than `Minimum`.  It returns false for the empty list and for a list whose pools all
have `Maximum <= Minimum`, and it returns the same value for every reordering of the pools. -/
theorem ClusterAutoscalerRequired_iff (pools : List helper.WorkerPool) :
    (helper.ClusterAutoscalerRequired pools = true
        ↔ ∃ pool ∈ pools, pool.Maximum > pool.Minimum)
      ∧ helper.ClusterAutoscalerRequired [] = false
      ∧ ((∀ pool ∈ pools, pool.Maximum ≤ pool.Minimum) →
          helper.ClusterAutoscalerRequired pools = false)
      ∧ (∀ reordered : List helper.WorkerPool, pools.Perm reordered →
          helper.ClusterAutoscalerRequired reordered
            = helper.ClusterAutoscalerRequired pools) := by
  have key : ∀ ps : List helper.WorkerPool,
      helper.ClusterAutoscalerRequired ps = true ↔ ∃ pool ∈ ps, pool.Maximum > pool.Minimum := by
    intro ps
    induction ps with
    | nil => simp [helper.ClusterAutoscalerRequired]
    | cons p rest ih =>
      unfold helper.ClusterAutoscalerRequired
      by_cases hp : p.Maximum > p.Minimum
      · simp [hp]
      · simp [hp, ih]
  refine ⟨key pools, rfl, ?_, ?_⟩
  · intro hall
    cases hres : helper.ClusterAutoscalerRequired pools with
    | false => rfl
    | true =>
      obtain ⟨pool, hmem, hgt⟩ := (key pools).mp hres
      exact absurd (hall pool hmem) (not_le.mpr hgt)
  · intro reordered hperm
    have hiff : helper.ClusterAutoscalerRequired reordered = true
        ↔ helper.ClusterAutoscalerRequired pools = true := by
      rw [key, key]
      constructor
      · rintro ⟨pool, hmem, hgt⟩
        exact ⟨pool, hperm.mem_iff.mpr hmem, hgt⟩
      · rintro ⟨pool, hmem, hgt⟩
        exact ⟨pool, hperm.mem_iff.mp hmem, hgt⟩
    cases h1 : helper.ClusterAutoscalerRequired reordered <;>
      cases h2 : helper.ClusterAutoscalerRequired pools <;> simp_all

theorem ClusterAutoscalerRequired_iff_witness :
    helper.ClusterAutoscalerRequired [{ Maximum := 2, Minimum := 2 }, { Maximum := 0, Minimum := 3 }]
        = false
      ∧ helper.ClusterAutoscalerRequired
          [{ Maximum := 0, Minimum := 3 }, { Maximum := 2, Minimum := 2 }]
        = helper.ClusterAutoscalerRequired
          [{ Maximum := 2, Minimum := 2 }, { Maximum := 0, Minimum := 3 }]
      ∧ helper.ClusterAutoscalerRequired
          [{ Maximum := 1, Minimum := 1 }, { Maximum := 5, Minimum := 3 }] = true :=
  ⟨(ClusterAutoscalerRequired_iff
      [{ Maximum := 2, Minimum := 2 }, { Maximum := 0, Minimum := 3 }]).2.2.1 (by decide),
    (ClusterAutoscalerRequired_iff
      [{ Maximum := 2, Minimum := 2 }, { Maximum := 0, Minimum := 3 }]).2.2.2 _
      (List.Perm.swap _ _ _),
    (ClusterAutoscalerRequired_iff
      [{ Maximum := 1, Minimum := 1 }, { Maximum := 5, Minimum := 3 }]).1.mpr
      ⟨{ Maximum := 5, Minimum := 3 }, by decide, by decide⟩⟩

/-- C11: with three distinct record type constants, `GetDNSRecordType` returns one of A, AAAA
and CNAME: A exactly when the address parses as an IP address that has a 4-byte form (`To4` is
not `nil`), AAAA exactly when it parses as an IP address without a 4-byte form, and CNAME
exactly when it does not parse.  This holds for every parser.  So an address that parses to an
IPv4-mapped 16-byte address yields A.  With `net.ParseIP`, the empty string yields CNAME, and
so does every address with neither a dot nor a colon, and every address without a colon
that has a character other than a digit or a dot, as every host name with an alphabetic label
has. -/
theorem GetDNSRecordType_classifies (t : helper.DNSRecordTypes)
    (parseIP : String → Option IP) (address : String)
    (hdistinct : t.DNSRecordTypeA ≠ t.DNSRecordTypeAAAA
      ∧ t.DNSRecordTypeA ≠ t.DNSRecordTypeCNAME
      ∧ t.DNSRecordTypeAAAA ≠ t.DNSRecordTypeCNAME) :
    (helper.GetDNSRecordType t parseIP address = t.DNSRecordTypeA
        ∨ helper.GetDNSRecordType t parseIP address = t.DNSRecordTypeAAAA
        ∨ helper.GetDNSRecordType t parseIP address = t.DNSRecordTypeCNAME)
      ∧ (helper.GetDNSRecordType t parseIP address = t.DNSRecordTypeA
          ↔ ∃ ip ip4, parseIP address = some ip ∧ To4 ip = some ip4)
      ∧ (helper.GetDNSRecordType t parseIP address = t.DNSRecordTypeAAAA
          ↔ ∃ ip, parseIP address = some ip ∧ To4 ip = none)
      ∧ (helper.GetDNSRecordType t parseIP address = t.DNSRecordTypeCNAME
          ↔ parseIP address = none)
      ∧ (∀ a b c d : Nat, parseIP address = some (IPv4 a b c d) →
          helper.GetDNSRecordType t parseIP address = t.DNSRecordTypeA)
      ∧ helper.GetDNSRecordType t ParseIP "" = t.DNSRecordTypeCNAME
      ∧ (∀ host : String, ':' ∉ host.data →
          (∃ ch ∈ host.data, ¬ ('0' ≤ ch ∧ ch ≤ '9') ∧ ch ≠ '.') →
          helper.GetDNSRecordType t ParseIP host = t.DNSRecordTypeCNAME)
      ∧ (∀ host : String, '.' ∉ host.data → ':' ∉ host.data →
          helper.GetDNSRecordType t ParseIP host = t.DNSRecordTypeCNAME) := by
  obtain ⟨h1, h2, h3⟩ := hdistinct
  have hmapped : ∀ a b c d : Nat, To4 (IPv4 a b c d) = some [a, b, c, d] := by
    intro a b c d
    simp [To4, IPv4]
  have hclass :
      (helper.GetDNSRecordType t parseIP address = t.DNSRecordTypeA
          ∨ helper.GetDNSRecordType t parseIP address = t.DNSRecordTypeAAAA
          ∨ helper.GetDNSRecordType t parseIP address = t.DNSRecordTypeCNAME)
        ∧ (helper.GetDNSRecordType t parseIP address = t.DNSRecordTypeA
            ↔ ∃ ip ip4, parseIP address = some ip ∧ To4 ip = some ip4)
        ∧ (helper.GetDNSRecordType t parseIP address = t.DNSRecordTypeAAAA
            ↔ ∃ ip, parseIP address = some ip ∧ To4 ip = none)
        ∧ (helper.GetDNSRecordType t parseIP address = t.DNSRecordTypeCNAME
            ↔ parseIP address = none) := by
    cases hp : parseIP address with
    | none =>
      simp [helper.GetDNSRecordType, hp, h2.symm, h3.symm]
    | some ip =>
      cases ht : To4 ip with
      | none => simp [helper.GetDNSRecordType, hp, ht, h1.symm, h3]
      | some ip4 => simp [helper.GetDNSRecordType, hp, ht, h1, h2]
  refine ⟨hclass.1, hclass.2.1, hclass.2.2.1, hclass.2.2.2, ?_, rfl, ?_, ?_⟩
  · intro a b c d hp
    exact hclass.2.1.mpr ⟨IPv4 a b c d, [a, b, c, d], hp, hmapped a b c d⟩
  · intro host hcolon hletter
    simp [helper.GetDNSRecordType, ParseIP_host_name host hcolon hletter]
  · intro host hdot hcolon
    simp [helper.GetDNSRecordType, ParseIP, ParseIP_no_separator host.data host.data hdot hcolon]

theorem GetDNSRecordType_classifies_witness :
    helper.GetDNSRecordType exampleRecordTypes ParseIP "10.0.0.1" = "A"
      ∧ helper.GetDNSRecordType exampleRecordTypes ParseIP "2001:db8::1" = "AAAA"
      ∧ helper.GetDNSRecordType exampleRecordTypes ParseIP "1.2.3" = "CNAME"
      ∧ helper.GetDNSRecordType exampleRecordTypes ParseIP "::ffff:10.0.0.1" = "A"
      ∧ helper.GetDNSRecordType exampleRecordTypes ParseIP "" = "CNAME"
      ∧ helper.GetDNSRecordType exampleRecordTypes ParseIP "api.example.com" = "CNAME"
      ∧ helper.GetDNSRecordType exampleRecordTypes ParseIP "localhost" = "CNAME" :=
  ⟨(GetDNSRecordType_classifies exampleRecordTypes ParseIP "10.0.0.1"
      (by decide)).2.1.mpr ⟨IPv4 10 0 0 1, [10, 0, 0, 1], by decide, by decide⟩,
    (GetDNSRecordType_classifies exampleRecordTypes ParseIP "2001:db8::1"
      (by decide)).2.2.1.mpr
      ⟨[0x20, 1, 0xd, 0xb8, 0, 0, 0, 0, 0, 0, 0, 0, 0, 0, 0, 1], by decide, by decide⟩,
    (GetDNSRecordType_classifies exampleRecordTypes ParseIP "1.2.3"
      (by decide)).2.2.2.1.mpr (by decide),
    (GetDNSRecordType_classifies exampleRecordTypes ParseIP "::ffff:10.0.0.1"
      (by decide)).2.2.2.2.1 10 0 0 1 (by decide),
    (GetDNSRecordType_classifies exampleRecordTypes ParseIP "" (by decide)).2.2.2.2.2.1,
    (GetDNSRecordType_classifies exampleRecordTypes ParseIP "" (by decide)).2.2.2.2.2.2.1
      "api.example.com" (by decide) ⟨'a', by decide, by decide, by decide⟩,
    (GetDNSRecordType_classifies exampleRecordTypes ParseIP "" (by decide)).2.2.2.2.2.2.2
      "localhost" (by decide) (by decide)⟩

/-- C12: in the ClusterRole that `clusterRole` returns, the rule for API group
`coordination.k8s.io`, resource `leases`, resource names exactly the scheduler lock-object name
and verbs exactly get, watch, update is present.  The rules that mention `leases` (or the
wildcard resource) are, in order, a rule without resource names whose only verb is create, and
that name-scoped rule; no other rule mentions leases.  So a rule that applies to all leases
grants exactly the verb create, and none of get, watch, update, patch, list, delete or the
wildcard verb. -/
theorem clusterRole_lease_rules (c : Constants) :
    ({ APIGroups := ["coordination.k8s.io"], Resources := ["leases"],
       ResourceNames := [c.SchedulerDefaultLockObjectName],
       Verbs := ["get", "watch", "update"] } : PolicyRule)
        ∈ (gardenerscheduler.clusterRole c).Rules
      ∧ (gardenerscheduler.clusterRole c).Rules.filter
            (fun rule => decide ("leases" ∈ rule.Resources ∨ "*" ∈ rule.Resources))
          = [{ APIGroups := ["coordination.k8s.io"], Resources := ["leases"],
               ResourceNames := [], Verbs := ["create"] },
             { APIGroups := ["coordination.k8s.io"], Resources := ["leases"],
               ResourceNames := [c.SchedulerDefaultLockObjectName],
               Verbs := ["get", "watch", "update"] }]
      ∧ (∀ rule ∈ (gardenerscheduler.clusterRole c).Rules,
          ("leases" ∈ rule.Resources ∨ "*" ∈ rule.Resources) →
          rule.ResourceNames = [] →
          rule.Verbs = ["create"]
            ∧ ∀ verb ∈ ["get", "watch", "update", "patch", "list", "delete", "*"],
                verb ∉ rule.Verbs) := by
  refine ⟨?_, ?_, ?_⟩
  · simp [gardenerscheduler.clusterRole, coordinationv1beta1GroupName]
  · simp [gardenerscheduler.clusterRole, coordinationv1beta1GroupName, List.filter]
  · intro rule hrule hleases hnames
    simp only [gardenerscheduler.clusterRole, List.mem_cons, List.mem_singleton,
      List.not_mem_nil, or_false] at hrule
    rcases hrule with rfl | rfl | rfl | rfl | rfl | rfl | rfl
    · simp at hleases
    · simp at hleases
    · simp at hleases
    · simp at hleases
    · simp at hleases
    · simp
    · simp at hnames

theorem clusterRole_lease_rules_witness :
    ({ APIGroups := ["coordination.k8s.io"], Resources := ["leases"],
       ResourceNames := [], Verbs := ["create"] } : PolicyRule).Verbs = ["create"]
      ∧ ∀ verb ∈ ["get", "watch", "update", "patch", "list", "delete", "*"],
          verb ∉ ({ APIGroups := ["coordination.k8s.io"], Resources := ["leases"],
                    ResourceNames := [], Verbs := ["create"] } : PolicyRule).Verbs :=
  (clusterRole_lease_rules exampleConstants).2.2
    { APIGroups := ["coordination.k8s.io"], Resources := ["leases"],
      ResourceNames := [], Verbs := ["create"] }
    (by decide) (Or.inl (by decide)) rfl

end Gardener
